import Mathlib

/-!
# Verification of `pv_track_fields_dynamic` (dynamic field-change tracking)

Shallow embedding of the module's two source files:

* `models/patcher.py` — the global `write`/`create` interceptor
  (`tfd_write`, `tfd_create`), the value formatter (`_format_value`),
  the snapshot helper (`_snapshot_for`), the diff builder (`_build_lines`),
  the readiness guard (`_tfd_is_ready`) and the config lookup (`_get_cfg`).
* `models/track_config.py` — the `track.fields.config` model
  (`TrackFieldConfig`) and its SQL uniqueness constraint.

Odoo runtime values flowing through the patcher are modelled by the inductive
type `Val`; Python `str()` by `pyStr`; Python truthiness by `truthy`.
External host helpers (`odoo.fields.Date.to_string`, `odoo.tools.format_datetime`)
are outside this repository and are modelled as the value's string form — none
of the properties below concern date rendering.
-/

/-- A Python/Odoo runtime value as it appears in the patcher.

* `.float s` is a Python float identified by its `repr`/`str` rendering `s`
  (Python float `repr` is injective except for `0.0`/`-0.0`, which we never use);
  `str(raw_value)` on it is exactly `s`.
* `.record i dn` is a non-empty many2one recordset with `id = i` and
  `display_name = dn`.
* `.recordset l` is a many2many/one2many recordset whose records, in order, have
  the (id, display_name) pairs in `l`.
* `.tupleInts l` is a Python tuple of ints (only produced by normalization,
  `tuple(sorted(ids))`). -/
inductive Val where
  | none
  | bool (b : Bool)
  | int (n : Int)
  | float (s : String)
  | str (s : String)
  | record (i : Nat) (dn : String)
  | recordset (l : List (Nat × String))
  | tupleInts (l : List Nat)
  deriving DecidableEq, Repr

/-- Python `str()` on a `Val`.  For recordsets the patcher never reaches the
plain-`str` fallback in the paths we verify, so their exact Python rendering is
immaterial; we still give them a fixed form. -/
def pyStr : Val → String
  | .none => "None"
  | .bool b => if b then "True" else "False"
  | .int n => toString n
  | .float s => s
  | .str s => s
  | .record i _ => "record(" ++ toString i ++ ")"
  | .recordset l => "records(" ++ toString (l.map Prod.fst) ++ ")"
  | .tupleInts l => toString l

/-- Python truthiness of a `Val` (`if raw_value:`). -/
def truthy : Val → Bool
  | .none => false
  | .bool b => b
  | .int n => n != 0
  | .float s => !(s == "0.0" || s == "-0.0")
  | .str s => s != ""
  | .record _ _ => true
  | .recordset l => !l.isEmpty
  | .tupleInts l => !l.isEmpty

/-- An `ir.model.fields` record as `_build_lines` uses it: field name,
`ttype`, and `field_description` (empty string for a falsy description). -/
structure IrModelField where
  name : String
  ttype : String
  field_description : String
  deriving DecidableEq, Repr

/-- The `track.fields.config` model exactly as declared in
`models/track_config.py`: `active`, `company_id`, `model_id`, `field_ids`,
`exclude_empty_changes`, `show_old_values`, `show_new_values`,
`group_changes_per_record`.  `model_id` is represented by the referenced
model's technical name (`model_id.model`; `ir.model` rows are unique per
name).  Note the model declares **no** `track_on_create` field. -/
structure TrackFieldConfig where
  active : Bool
  company_id : Nat
  model_id : String
  field_ids : List IrModelField
  exclude_empty_changes : Bool
  show_old_values : Bool
  show_new_values : Bool
  group_changes_per_record : Bool
  deriving DecidableEq, Repr

/-- `getattr(cfg, "track_on_create", False)` in `tfd_create`:
`track.fields.config` declares no `track_on_create` field (see
`TrackFieldConfig` / `models/track_config.py`), so on every configuration
record the attribute lookup raises `AttributeError` and `getattr` returns its
default `False`. -/
def track_on_create_of (_ : TrackFieldConfig) : Bool := false

/-- `_format_value(env, rec, field, raw_value)` from `models/patcher.py`:
pretty-print a value based on the field's `ttype`.  The `date`/`datetime`
branches call host helpers outside this repository; their `try/except` falls
back to `str(raw_value)` and we model the helpers as that same string form. -/
def format_value (field : IrModelField) (raw_value : Val) : String :=
  if raw_value = .none then "False"
  else
    let t := field.ttype
    if t = "char" ∨ t = "text" ∨ t = "html" then pyStr raw_value
    else if t = "boolean" then (if truthy raw_value then "True" else "False")
    else if t = "integer" ∨ t = "float" ∨ t = "monetary" then pyStr raw_value
    else if t = "date" then pyStr raw_value
    else if t = "datetime" then pyStr raw_value
    else if t = "many2one" then
      match raw_value with
      | .record _ dn => dn
      | v => pyStr v
    else if t = "many2many" ∨ t = "one2many" then
      match raw_value with
      | .recordset l => String.intercalate ", " (l.map Prod.snd)
      | v => pyStr v
    else pyStr raw_value

/-- Normalization applied by `_build_lines` before comparing a field's old and
new values:

* `many2one`: `getattr(v, "id", v)` — the record's id for a recordset, the
  value itself otherwise;
* `many2many`/`one2many`: `tuple(sorted(getattr(v, "ids", []) or []))`;
  `List.insertionSort` on the ids matches Python's `sorted`;
* anything else: the raw value, compared as-is. -/
def normalize_cmp (ttype : String) (v : Val) : Val :=
  if ttype = "many2one" then
    match v with
    | .record i _ => .int i
    | w => w
  else if ttype = "many2many" ∨ ttype = "one2many" then
    match v with
    | .recordset l => .tupleInts (List.insertionSort (· ≤ ·) (l.map Prod.fst))
    | _ => .tupleInts []
  else v

/-- `f.field_description or f.name`: Python `or` takes the description when it
is truthy (non-empty), else the name. -/
def field_label (f : IrModelField) : String :=
  if f.field_description ≠ "" then f.field_description else f.name

/-- The line `_build_lines` appends for one changed field:
`"%(field)s: %(old)s → %(new)s"` with each side formatted when the
corresponding `show_*_values` flag is set and the empty string otherwise. -/
def change_line (cfg : TrackFieldConfig) (f : IrModelField) (old new : Val) : String :=
  field_label f ++ ": "
    ++ (if cfg.show_old_values then format_value f old else "")
    ++ " → "
    ++ (if cfg.show_new_values then format_value f new else "")

/-- A snapshot as built by `_snapshot_for`: a dict from field name to value.
Modelled as an association list keyed in insertion order. -/
abbrev Snapshot := List (String × Val)

/-- Dict membership / item lookup on a snapshot (`fname in before`,
`before[fname]`). -/
def snap_get (s : Snapshot) (fname : String) : Option Val := s.lookup fname

/-- `_build_lines(env, rec, cfg, before, after)` from `models/patcher.py`:
iterate the configuration's `field_ids` **in declared order**; skip a field
missing from either snapshot; skip a field whose normalized old and new values
are equal; otherwise append its rendered change line.  (The function never
reads `cfg.exclude_empty_changes`.) -/
def build_lines (cfg : TrackFieldConfig) (before after : Snapshot) : List String :=
  cfg.field_ids.filterMap (fun f =>
    match snap_get before f.name, snap_get after f.name with
    | some old, some new =>
        if normalize_cmp f.ttype old = normalize_cmp f.ttype new then Option.none
        else some (change_line cfg f old new)
    | _, _ => Option.none)

/-- The host model class the patched methods run on: its technical `_name`,
its `_fields` keys, and whether it has a `message_post` method (chatter).
`"message_ids" in self._fields` is checked against `field_names`. -/
structure OdooModel where
  name : String
  field_names : List String
  has_message_post : Bool
  deriving DecidableEq, Repr

/-- A record of some model: its database id, its `display_name`, and its
current stored field values. -/
structure Entity where
  id : Nat
  display_name : String
  vals : List (String × Val)
  deriving DecidableEq, Repr

/-- `rec[fname]`: a field absent from the record's stored values reads as the
falsy default `False`, as Odoo presents empty values. -/
def read_field (e : Entity) (fname : String) : Val :=
  (e.vals.lookup fname).getD (.bool false)

/-- `_snapshot_for(rec, field_names)` from `models/patcher.py`:
`{fname: rec[fname] for fname in field_names if fname in rec._fields}`. -/
def snapshot_for (m : OdooModel) (e : Entity) (field_names : List String) : Snapshot :=
  field_names.filterMap (fun fname =>
    if m.field_names.contains fname then some (fname, read_field e fname) else Option.none)

/-- The environment the interceptors consult: the `module_uninstall` /
`install_mode` context keys, whether `track.fields.config` is in the registry,
the current company, and the configuration store's rows (in the store's
`_order`). -/
structure Env where
  module_uninstall : Bool
  install_mode : Bool
  registry_has_config : Bool
  company_id : Nat
  configs : List TrackFieldConfig
  deriving DecidableEq, Repr

/-- `TECH_MODELS` from `models/patcher.py`. -/
def TECH_MODELS : List String :=
  ["ir.module.module", "base.module.uninstall", "ir.ui.view", "ir.model",
   "ir.model.fields", "ir.actions.act_window", "ir.actions.server", "ir.cron",
   "ir.rule", "ir.config_parameter", "bus.bus"]

/-- `_tfd_is_ready(env)` from `models/patcher.py`: tracking runs only when
neither `module_uninstall` nor `install_mode` is set and the config model is
registered. -/
def tfd_is_ready (env : Env) : Bool :=
  if env.module_uninstall || env.install_mode then false else env.registry_has_config

/-- `_get_cfg(env, model_name)` from `models/patcher.py`: the first active
configuration of the current company for `model_name`, or none.  The
operation-scoped context cache only memoizes this deterministic search within
one operation, so the cached and uncached results coincide; the `try/except`
returning `False` has no failing branch in the pure embedding. -/
def get_cfg (env : Env) (model_name : String) : Option TrackFieldConfig :=
  if ¬ tfd_is_ready env then Option.none
  else env.configs.find? (fun c =>
    c.active && c.company_id == env.company_id && c.model_id == model_name)

/-- A chatter message as `message_post` receives it: the record it is posted
on, the rendered body, and the fixed message type and subtype. -/
structure Note where
  target_id : Nat
  body : String
  message_type : String
  subtype_xmlid : String
  deriving DecidableEq, Repr

def mk_note (target : Nat) (body : String) : Note :=
  { target_id := target, body := body,
    message_type := "comment", subtype_xmlid := "mail.mt_note" }

/-- `BaseModel.write` (the unpatched `_tfd_orig_write`): apply the supplied
values to every record of the set and return `True`. -/
def apply_vals (e : Entity) (vals : List (String × Val)) : Entity :=
  { e with vals := e.vals.map (fun p => (p.1, (vals.lookup p.1).getD p.2)) }

def orig_write (recs : List Entity) (vals : List (String × Val)) :
    List Entity × Bool :=
  (recs.map (fun r => apply_vals r vals), true)

/-- `before_by_id.get(rec.id, {})`. -/
def by_id (snaps : List (Nat × Snapshot)) (i : Nat) : Snapshot :=
  (snaps.lookup i).getD []

/-- What `tfd_write` leaves behind: the written records, the boolean the call
returns, and the chatter messages it posts, in posting order. -/
structure WriteOutcome where
  records : List Entity
  result : Bool
  notes : List Note
  deriving DecidableEq, Repr

/-- `tracked_names = [f.name for f in cfg.field_ids if f.name in self._fields]`. -/
def tracked_names (cfg : TrackFieldConfig) (m : OdooModel) : List String :=
  (cfg.field_ids.filter (fun f => m.field_names.contains f.name)).map IrModelField.name

/-- The grouped branch of `tfd_write`'s emission (`cfg.group_changes_per_record`
true): for each written record with a non-empty line list, one note on that
record whose body joins its lines with `<br/>`. -/
def write_group_notes (cfg : TrackFieldConfig) (written : List Entity)
    (before after : List (Nat × Snapshot)) : List Note :=
  written.filterMap (fun r =>
    let lines := build_lines cfg (by_id before r.id) (by_id after r.id)
    if lines.isEmpty then Option.none
    else some (mk_note r.id
      ("<div>" ++ String.intercalate "<br/>" lines ++ "</div>")))

/-- The ungrouped branch of `tfd_write`'s emission: one titled block per
written record with a non-empty line list, all collected into a single note
posted on `self[0]` (no note when no record changed). -/
def write_block_notes (cfg : TrackFieldConfig) (written : List Entity)
    (before after : List (Nat × Snapshot)) : List Note :=
  let blocks := written.filterMap (fun r =>
    let lines := build_lines cfg (by_id before r.id) (by_id after r.id)
    if lines.isEmpty then Option.none
    else some ("<div><b>" ++ r.display_name ++ "</b><br/>"
      ++ String.intercalate "<br/>" lines ++ "</div>"))
  if blocks.isEmpty then []
  else
    match written with
    | [] => []
    | r0 :: _ => [mk_note r0.id ("<div>" ++ String.join blocks ++ "</div>")]

/-- `tfd_write(self, vals)` from `models/patcher.py`, the patched
`BaseModel.write`.  Guard chain in source order (each failure passes through
to the original write with no note): technical model; empty recordset or not
ready; no active config or config without fields; no chatter; no tracked field
on this model.  Otherwise: snapshot before, run the original write, snapshot
after, then emit through `write_group_notes` (`group_changes_per_record`) or
`write_block_notes`. -/
def tfd_write (env : Env) (m : OdooModel) (recs : List Entity)
    (vals : List (String × Val)) : WriteOutcome :=
  let pass : WriteOutcome :=
    { records := (orig_write recs vals).1, result := (orig_write recs vals).2,
      notes := [] }
  if TECH_MODELS.contains m.name then pass
  else if recs.isEmpty ∨ ¬ tfd_is_ready env then pass
  else
    match get_cfg env m.name with
    | Option.none => pass
    | some cfg =>
      if cfg.field_ids.isEmpty then pass
      else if ¬ (m.has_message_post && m.field_names.contains "message_ids") then pass
      else
        let tracked := tracked_names cfg m
        if tracked.isEmpty then pass
        else
          let before := recs.map (fun r => (r.id, snapshot_for m r tracked))
          let written := recs.map (fun r => apply_vals r vals)
          let after := written.map (fun r => (r.id, snapshot_for m r tracked))
          let notes :=
            if cfg.group_changes_per_record then
              write_group_notes cfg written before after
            else
              write_block_notes cfg written before after
          { records := written, result := true, notes := notes }

/-- `BaseModel.create` (the unpatched `_tfd_orig_create`): build one record
per values dict.  The host assigns consecutive database ids starting at
`next_id` and computes `display_name` (by default the record's `name` field);
every model field absent from the supplied values holds its falsy default. -/
def orig_create (m : OdooModel) (next_id : Nat)
    (vals_list : List (List (String × Val))) : List Entity :=
  (List.enum vals_list).map (fun p =>
    { id := next_id + p.1,
      display_name :=
        match p.2.lookup "name" with
        | some (.str s) => s
        | _ => "",
      vals := m.field_names.map (fun n => (n, (p.2.lookup n).getD (.bool false))) })

/-- What `tfd_create` leaves behind: the created records (the call's return
value) and the chatter messages it posts, in posting order. -/
structure CreateOutcome where
  records : List Entity
  notes : List Note
  deriving DecidableEq, Repr

/-- The line `tfd_create` renders for one field of a created record:
`"%(field)s: %(new)s"` — the new value only, with no old side. -/
def create_line (f : IrModelField) (newv : Val) : String :=
  field_label f ++ ": " ++ format_value f newv

/-- The per-record lines of the create path: every tracked field present in
the record's after-creation snapshot, in `field_ids` declared order. -/
def create_lines (cfg : TrackFieldConfig) (after : Snapshot) : List String :=
  cfg.field_ids.filterMap (fun f =>
    match snap_get after f.name with
    | some newv => some (create_line f newv)
    | Option.none => Option.none)

/-- `tfd_create(self, vals_list)` from `models/patcher.py`, the patched
`BaseModel.create`.  Same guard chain as `tfd_write` (minus the empty-
recordset check); after the original create it posts notes only when
`getattr(cfg, "track_on_create", False)` is true — which, the configuration
model declaring no such field, is never (`track_on_create_of`). -/
def tfd_create (env : Env) (m : OdooModel) (next_id : Nat)
    (vals_list : List (List (String × Val))) : CreateOutcome :=
  let recs := orig_create m next_id vals_list
  let pass : CreateOutcome := { records := recs, notes := [] }
  if TECH_MODELS.contains m.name then pass
  else if ¬ tfd_is_ready env then pass
  else
    match get_cfg env m.name with
    | Option.none => pass
    | some cfg =>
      if cfg.field_ids.isEmpty then pass
      else if ¬ (m.has_message_post && m.field_names.contains "message_ids") then pass
      else
        let tracked := (cfg.field_ids.filter
          (fun f => m.field_names.contains f.name)).map IrModelField.name
        if tracked.isEmpty then pass
        else if track_on_create_of cfg then
          let notes :=
            if cfg.group_changes_per_record then
              recs.filterMap (fun r =>
                let lines := create_lines cfg (snapshot_for m r tracked)
                if lines.isEmpty then Option.none
                else some (mk_note r.id
                  ("<div>" ++ String.intercalate "<br/>" lines ++ "</div>")))
            else
              let blocks := recs.filterMap (fun r =>
                let lines := create_lines cfg (snapshot_for m r tracked)
                if lines.isEmpty then Option.none
                else some ("<div><b>" ++ r.display_name ++ "</b><br/>"
                  ++ String.intercalate "<br/>" lines ++ "</div>"))
              if blocks.isEmpty then []
              else
                match recs with
                | [] => []
                | r0 :: _ => [mk_note r0.id ("<div>" ++ String.join blocks ++ "</div>")]
          { records := recs, notes := notes }
        else pass

/-- Post a list of notes in order through the host's `message_post`, which
may raise.  The source wraps no `try/except` around its `message_post` calls,
so the first raising post aborts the remaining ones and the exception leaves
`tfd_write`/`tfd_create`. -/
def post_all (post : Note → Except String Unit) : List Note → Except String Unit
  | [] => .ok ()
  | n :: ns => do post n; post_all post ns

/-- A full patched-write call as the caller observes it: the records are
written, the interceptor's notes are posted through the host's (possibly
raising) `message_post`, and the write's return value comes back only if no
post raised — an uncaught posting exception propagates. -/
def tfd_write_run (post : Note → Except String Unit) (env : Env) (m : OdooModel)
    (recs : List Entity) (vals : List (String × Val)) :
    Except String (List Entity × Bool) :=
  let o := tfd_write env m recs vals
  match post_all post o.notes with
  | .ok _ => .ok (o.records, o.result)
  | .error e => .error e

/-- A full patched-create call as the caller observes it (same propagation as
`tfd_write_run`). -/
def tfd_create_run (post : Note → Except String Unit) (env : Env) (m : OdooModel)
    (next_id : Nat) (vals_list : List (List (String × Val))) :
    Except String (List Entity) :=
  let o := tfd_create env m next_id vals_list
  match post_all post o.notes with
  | .ok _ => .ok o.records
  | .error e => .error e

/-- The `uniq_company_model` SQL constraint declared in
`models/track_config.py`: `unique(company_id, model_id)`.  A candidate row
violates it exactly when some stored row — active or not — already has its
(company, model) pair. -/
def uniq_company_model_violated (rows : List TrackFieldConfig)
    (row : TrackFieldConfig) : Bool :=
  rows.any (fun q => q.company_id == row.company_id && q.model_id == row.model_id)

/-- Inserting a configuration row into the store under the declared SQL
constraint (standard unique-constraint semantics: the insert is rejected with
the constraint's message on violation). -/
def insert_config (rows : List TrackFieldConfig) (row : TrackFieldConfig) :
    Except String (List TrackFieldConfig) :=
  if uniq_company_model_violated rows row then
    .error "There is already a tracking configuration for this model in this company."
  else .ok (rows ++ [row])

/-! ## Claim fixtures -/

/-! ## C1 fixtures -/

def c1model : OdooModel :=
  { name := "res.partner", field_names := ["name", "message_ids"],
    has_message_post := true }

def c1cfg : TrackFieldConfig :=
  { active := true, company_id := 1, model_id := "res.partner",
    field_ids := [{ name := "name", ttype := "char", field_description := "Name" }],
    exclude_empty_changes := true, show_old_values := true, show_new_values := true,
    group_changes_per_record := true }

def c1env : Env :=
  { module_uninstall := false, install_mode := false, registry_has_config := true,
    company_id := 1, configs := [c1cfg] }

/-! ## C3 fixtures -/

def c3field : IrModelField :=
  { name := "partner_id", ttype := "many2one", field_description := "Partner" }

def c3cfg : TrackFieldConfig :=
  { active := true, company_id := 1, model_id := "res.partner",
    field_ids := [c3field],
    exclude_empty_changes := true, show_old_values := true, show_new_values := true,
    group_changes_per_record := true }

/-! ## C4 fixtures -/

def c4field : IrModelField :=
  { name := "name", ttype := "char", field_description := "Name" }

def c4cfg : TrackFieldConfig :=
  { active := true, company_id := 1, model_id := "res.partner",
    field_ids := [c4field],
    exclude_empty_changes := true, show_old_values := false, show_new_values := false,
    group_changes_per_record := true }

/-! ## C7 fixtures -/

def c7field : IrModelField :=
  { name := "amount", ttype := "monetary", field_description := "Amount" }

def c7cfg : TrackFieldConfig :=
  { active := true, company_id := 1, model_id := "sale.order",
    field_ids := [c7field],
    exclude_empty_changes := true, show_old_values := true, show_new_values := true,
    group_changes_per_record := true }

/-! ## C5 fixtures -/

def c5f1 : IrModelField := { name := "f1", ttype := "char", field_description := "F1" }

def c5f2 : IrModelField := { name := "f2", ttype := "char", field_description := "F2" }

def c5cfg : TrackFieldConfig :=
  { active := true, company_id := 1, model_id := "res.partner",
    field_ids := [c5f1, c5f2],
    exclude_empty_changes := true, show_old_values := true, show_new_values := true,
    group_changes_per_record := false }

def c5model : OdooModel :=
  { name := "res.partner", field_names := ["f1", "f2", "message_ids"],
    has_message_post := true }

def c5env : Env :=
  { module_uninstall := false, install_mode := false, registry_has_config := true,
    company_id := 1, configs := [c5cfg] }

def c5r1 : Entity :=
  { id := 1, display_name := "R1",
    vals := [("f1", Val.str "x"), ("f2", Val.str "y"), ("message_ids", Val.recordset [])] }

def c5r2 : Entity :=
  { id := 2, display_name := "R2",
    vals := [("f1", Val.str "a"), ("f2", Val.str "b"), ("message_ids", Val.recordset [])] }

def c10q : TrackFieldConfig :=
  { active := false, company_id := 1, model_id := "res.partner", field_ids := [],
    exclude_empty_changes := true, show_old_values := true, show_new_values := true,
    group_changes_per_record := true }

def c10row : TrackFieldConfig :=
  { active := true, company_id := 1, model_id := "res.partner", field_ids := [],
    exclude_empty_changes := true, show_old_values := true, show_new_values := true,
    group_changes_per_record := true }

/-! ## C2 fixtures -/

def c2field : IrModelField :=
  { name := "name", ttype := "char", field_description := "Name" }

def c2cfg : TrackFieldConfig :=
  { active := true, company_id := 1, model_id := "res.partner",
    field_ids := [c2field],
    exclude_empty_changes := true, show_old_values := true, show_new_values := true,
    group_changes_per_record := true }

def c2model : OdooModel :=
  { name := "res.partner", field_names := ["name", "message_ids"],
    has_message_post := true }

def c2env : Env :=
  { module_uninstall := false, install_mode := false, registry_has_config := true,
    company_id := 1, configs := [c2cfg] }

def c2rec : Entity :=
  { id := 5, display_name := "A",
    vals := [("name", Val.str "a"), ("message_ids", Val.recordset [])] }

/-! ## C6 fixtures -/

def c6f1 : IrModelField := { name := "fa", ttype := "char", field_description := "FA" }

def c6f2 : IrModelField := { name := "fb", ttype := "char", field_description := "FB" }

def c6f3 : IrModelField := { name := "fc", ttype := "char", field_description := "FC" }

def c6cfg : TrackFieldConfig :=
  { active := true, company_id := 1, model_id := "res.partner",
    field_ids := [c6f1, c6f2, c6f3],
    exclude_empty_changes := true, show_old_values := true, show_new_values := true,
    group_changes_per_record := true }

def c6model : OdooModel :=
  { name := "res.partner", field_names := ["fa", "fb", "fc", "message_ids"],
    has_message_post := true }

def c6env : Env :=
  { module_uninstall := false, install_mode := false, registry_has_config := true,
    company_id := 1, configs := [c6cfg] }

def c6rec : Entity :=
  { id := 9, display_name := "R",
    vals := [("fa", Val.str "1"), ("fb", Val.str "2"), ("fc", Val.str "3"),
             ("message_ids", Val.recordset [])] }

def c6vals : List (String × Val) :=
  [("fa", Val.str "10"), ("fb", Val.str "20"), ("fc", Val.str "30")]

/-! ## C8 fixtures -/

/-- "The update changed only the member order": for each watched field, the
snapshot value is either unchanged, or the field is a multi-reference
(`many2many`/`one2many`) whose before/after recordsets hold the same ids up
to permutation (same membership, different order). -/
def reorder_only (ttype : String) (o o' : Option Val) : Prop :=
  o = o'
  ∨ ∃ l l', o = some (.recordset l) ∧ o' = some (.recordset l')
      ∧ (ttype = "many2many" ∨ ttype = "one2many")
      ∧ (l.map Prod.fst).Perm (l'.map Prod.fst)

def c8field : IrModelField :=
  { name := "tag_ids", ttype := "many2many", field_description := "Tags" }

def c8cfg : TrackFieldConfig :=
  { active := true, company_id := 1, model_id := "res.partner",
    field_ids := [c8field],
    exclude_empty_changes := true, show_old_values := true, show_new_values := true,
    group_changes_per_record := true }

/-! ## C9 fixtures -/

def c9field : IrModelField :=
  { name := "name", ttype := "char", field_description := "Name" }

def c9cfg : TrackFieldConfig :=
  { active := true, company_id := 1, model_id := "res.partner",
    field_ids := [c9field],
    exclude_empty_changes := true, show_old_values := true, show_new_values := true,
    group_changes_per_record := true }

def c9model : OdooModel :=
  { name := "res.partner", field_names := ["name", "message_ids"],
    has_message_post := true }

def c9env : Env :=
  { module_uninstall := false, install_mode := false, registry_has_config := true,
    company_id := 1, configs := [c9cfg] }

def c9rec : Entity :=
  { id := 3, display_name := "A",
    vals := [("name", Val.str "a"), ("message_ids", Val.recordset [])] }

/-! ## Theorems -/

/-! ## Shared lemmas -/

/-- `write` never changes a record's id. -/
theorem apply_vals_id (r : Entity) (vals : List (String × Val)) :
    (apply_vals r vals).id = r.id := rfl

/-- Diffing a snapshot against itself yields no change line. -/
theorem build_lines_self (cfg : TrackFieldConfig) (s : Snapshot) :
    build_lines cfg s s = [] := by
  unfold build_lines
  rw [List.filterMap_eq_nil_iff]
  intro f _
  cases h : snap_get s f.name <;> simp [h]

/-- **C1.** The claim's premise can never hold on this code: the configuration
model declares no `track_on_create` field, so `getattr(cfg, "track_on_create",
False)` is `False` on every configuration and the create interceptor never
posts a note — even in the spec's own scenario (active configuration watching
`name`, create supplying `name = "Acme Corp"`, all other guards passing),
where the spec expects one note with a `Name — Acme Corp` line. -/
theorem c1_track_on_create_unavailable :
    (∀ cfg : TrackFieldConfig, track_on_create_of cfg = false)
    ∧ get_cfg c1env "res.partner" = some c1cfg
    ∧ (tfd_create c1env c1model 7 [[("name", Val.str "Acme Corp")]]).notes = []
    ∧ (tfd_create c1env c1model 7 [[("name", Val.str "Acme Corp")]]).records =
        [{ id := 7, display_name := "Acme Corp",
           vals := [("name", Val.str "Acme Corp"), ("message_ids", Val.bool false)] }] :=
  ⟨fun _ => rfl, rfl, rfl, rfl⟩

/-- **C3 counterexample.** With `exclude_empty_changes` set, a many2one field
moving between two records that share a display name has equal formatted
display strings but different normalized values — and `_build_lines` still
produces a line (`Partner: X → X`), where the claim says none is produced. -/
theorem c3_counterexample :
    c3cfg.exclude_empty_changes = true
    ∧ format_value c3field (.record 1 "X") = format_value c3field (.record 2 "X")
    ∧ normalize_cmp c3field.ttype (.record 1 "X") ≠ normalize_cmp c3field.ttype (.record 2 "X")
    ∧ build_lines c3cfg [("partner_id", .record 1 "X")] [("partner_id", .record 2 "X")]
        = ["Partner: X → X"] :=
  ⟨rfl, rfl, by decide, rfl⟩

/-- **C3 amended.** `_build_lines` never consults `exclude_empty_changes`:
its output is identical for any value of the flag (a field is dropped exactly
when its normalized raw values compare equal, formatted strings never enter
the comparison). -/
theorem c3_amended_exclude_flag_unused (cfg : TrackFieldConfig) (e : Bool)
    (before after : Snapshot) :
    build_lines { cfg with exclude_empty_changes := e } before after
      = build_lines cfg before after := rfl

/-- **C4 counterexample.** With both `show_old_values` and `show_new_values`
false, a changed watched field still produces a line — `"Name:  → "` with
both sides blank — where the claim says no line is produced. -/
theorem c4_counterexample :
    c4cfg.show_old_values = false ∧ c4cfg.show_new_values = false
    ∧ build_lines c4cfg [("name", Val.str "a")] [("name", Val.str "b")]
        = ["Name:  → "] :=
  ⟨rfl, rfl, rfl⟩

/-- **C4 amended.** A changed watched field always produces exactly one line;
the `show_old_values`/`show_new_values` flags only decide whether each side of
`label: old → new` carries the formatted value or the empty string. -/
theorem c4_amended_line_always_produced (cfg : TrackFieldConfig) (f : IrModelField)
    (old new : Val) (h : normalize_cmp f.ttype old ≠ normalize_cmp f.ttype new) :
    build_lines { cfg with field_ids := [f] } [(f.name, old)] [(f.name, new)]
      = [field_label f ++ ": "
          ++ (if cfg.show_old_values then format_value f old else "")
          ++ " → "
          ++ (if cfg.show_new_values then format_value f new else "")] := by
  simp [build_lines, snap_get, change_line, h]

/-- Witness for `c4_amended_line_always_produced` at a concrete changed char
field with both show flags disabled. -/
theorem c4_amended_witness :
    normalize_cmp c4field.ttype (.str "a") ≠ normalize_cmp c4field.ttype (.str "b")
    ∧ build_lines { c4cfg with field_ids := [c4field] }
        [("name", Val.str "a")] [("name", Val.str "b")]
      = [field_label c4field ++ ": "
          ++ (if c4cfg.show_old_values then format_value c4field (.str "a") else "")
          ++ " → "
          ++ (if c4cfg.show_new_values then format_value c4field (.str "b") else "")] :=
  ⟨by decide,
   c4_amended_line_always_produced c4cfg c4field (.str "a") (.str "b") (by decide)⟩

/-- **C7 counterexample.** A monetary field changing `100.0 → 150.0` renders
through `str(raw_value)`: the line is `Amount: 100.0 → 150.0`, not the
claim's `Amount — $100.00 → $150.00` — no currency symbol, no two-decimal
precision. -/
theorem c7_counterexample :
    build_lines c7cfg [("amount", Val.float "100.0")] [("amount", Val.float "150.0")]
        = ["Amount: 100.0 → 150.0"]
    ∧ "Amount: 100.0 → 150.0" ≠ "Amount: $100.00 → $150.00" :=
  ⟨rfl, by decide⟩

/-- **C7 amended.** `_format_value` renders `integer`/`float`/`monetary`
values as plain `str(raw_value)`: no currency symbol and no fixed precision
is ever added (only `None` is special-cased to `"False"`). -/
theorem c7_amended_monetary_plain_str (f : IrModelField) (v : Val)
    (ht : f.ttype = "monetary") (hv : v ≠ .none) :
    format_value f v = pyStr v := by
  simp [format_value, ht, hv]

/-- Witness for `c7_amended_monetary_plain_str` at the spec scenario's new
amount. -/
theorem c7_amended_witness :
    c7field.ttype = "monetary" ∧ (Val.float "150.0") ≠ Val.none
    ∧ format_value c7field (.float "150.0") = pyStr (.float "150.0") :=
  ⟨rfl, by decide, c7_amended_monetary_plain_str c7field (.float "150.0") rfl (by decide)⟩

/-- **C5 counterexample.** Batch write on `[r1, r2]` with
`group_changes_per_record = false`, where only `r2` changes (two of its
watched fields): the interceptor posts ONE note — not one per change line —
and posts it on `r1` (`self[0]`), the record whose fields did NOT change. -/
theorem c5_counterexample :
    build_lines c5cfg [("f1", Val.str "x"), ("f2", Val.str "y")]
        [("f1", Val.str "x"), ("f2", Val.str "y")] = []
    ∧ (build_lines c5cfg [("f1", Val.str "a"), ("f2", Val.str "b")]
        [("f1", Val.str "x"), ("f2", Val.str "y")]).length = 2
    ∧ (tfd_write c5env c5model [c5r1, c5r2]
          [("f1", Val.str "x"), ("f2", Val.str "y")]).notes
        = [mk_note 1 "<div><div><b>R2</b><br/>F1: a → x<br/>F2: b → y</div></div>"] :=
  ⟨rfl, rfl, rfl⟩

/-! ## C10 -/

/-- **C10.** The store's `uniq_company_model` constraint is on
(company, model) irrespective of `active`: inserting a row whose
(company, model) pair an existing INACTIVE row already holds is rejected with
the constraint's message. -/
theorem c10_unique_ignores_active (rows : List TrackFieldConfig)
    (row q : TrackFieldConfig) (hq : q ∈ rows) (hA : q.active = false)
    (hc : q.company_id = row.company_id) (hm : q.model_id = row.model_id) :
    insert_config rows row =
      .error "There is already a tracking configuration for this model in this company." := by
  have hv : uniq_company_model_violated rows row = true := by
    unfold uniq_company_model_violated
    rw [List.any_eq_true]
    exact ⟨q, hq, by rw [hc, hm]; simp⟩
  simp [insert_config, hv]

/-- Witness for `c10_unique_ignores_active`: a store holding only an inactive
configuration for (company 1, `res.partner`) still rejects a new active one. -/
theorem c10_unique_ignores_active_witness :
    c10q ∈ [c10q] ∧ c10q.active = false
    ∧ c10q.company_id = c10row.company_id ∧ c10q.model_id = c10row.model_id
    ∧ insert_config [c10q] c10row =
        .error "There is already a tracking configuration for this model in this company." :=
  ⟨List.mem_singleton.mpr rfl, rfl, rfl, rfl,
   c10_unique_ignores_active [c10q] c10row c10q (List.mem_singleton.mpr rfl) rfl rfl rfl⟩

/-- **C2 counterexample.** `tfd_write` wraps no `try/except` around
`message_post`: when posting raises, the exception escapes the patched write,
so the wrapped call's outcome is NOT identical to the unwrapped call's (which
succeeds, returning `True`). -/
theorem c2_counterexample :
    tfd_write_run (fun _ => Except.error "note posting unavailable") c2env c2model
        [c2rec] [("name", Val.str "b")]
      = Except.error "note posting unavailable"
    ∧ orig_write [c2rec] [("name", Val.str "b")]
      = ([{ id := 5, display_name := "A",
            vals := [("name", Val.str "b"), ("message_ids", Val.recordset [])] }], true)
    ∧ tfd_write_run (fun _ => Except.error "note posting unavailable") c2env c2model
        [c2rec] [("name", Val.str "b")]
      ≠ Except.ok (orig_write [c2rec] [("name", Val.str "b")]) :=
  ⟨rfl, rfl, fun h => Except.noConfusion h⟩

/-- **C2 amended.** The interceptor never alters the mutation itself — the
written records and the returned `True` are exactly the unwrapped write's —
and guard/configuration-lookup failures are swallowed; but a failure raised
while posting a note is NOT caught: the wrapped call returns the unwrapped
result exactly when posting every generated note succeeds, and otherwise the
posting error propagates as-is to the caller. -/
theorem c2_amended_posting_failure_propagates (post : Note → Except String Unit)
    (env : Env) (m : OdooModel) (recs : List Entity) (vals : List (String × Val)) :
    ((tfd_write env m recs vals).records, (tfd_write env m recs vals).result)
        = orig_write recs vals
    ∧ tfd_write_run post env m recs vals
        = (match post_all post (tfd_write env m recs vals).notes with
           | .ok _ => .ok (orig_write recs vals)
           | .error e => .error e) := by
  have h0 : (tfd_write env m recs vals).records = (orig_write recs vals).1
      ∧ (tfd_write env m recs vals).result = (orig_write recs vals).2 := by
    unfold tfd_write
    dsimp only
    repeat' split
    all_goals exact ⟨rfl, rfl⟩
  have h1 : ((tfd_write env m recs vals).records, (tfd_write env m recs vals).result)
      = orig_write recs vals := by
    rw [h0.1, h0.2]
  refine ⟨h1, ?_⟩
  unfold tfd_write_run
  dsimp only
  cases hp : post_all post (tfd_write env m recs vals).notes with
  | ok u => rw [h1]
  | error e => rfl

/-- The ungrouped emitter posts nothing or exactly one note, on the first
written record. -/
theorem write_block_notes_shape (cfg : TrackFieldConfig) (written : List Entity)
    (before after : List (Nat × Snapshot)) :
    write_block_notes cfg written before after = []
    ∨ ∃ r0 tail body, written = r0 :: tail
        ∧ write_block_notes cfg written before after = [mk_note r0.id body] := by
  unfold write_block_notes
  dsimp only
  split
  · exact Or.inl rfl
  · cases written with
    | nil => exact Or.inl rfl
    | cons r0 tail => exact Or.inr ⟨r0, tail, _, rfl, rfl⟩

/-- **C5 amended.** With `group_changes_per_record` false the emitter does not
post one note per change line: all changed records' lines are combined into at
most ONE note per write call, and that note is posted on the first record of
the written recordset (`self[0]`) — whichever record actually changed. -/
theorem c5_amended_one_combined_note_on_first (env : Env) (m : OdooModel)
    (recs : List Entity) (vals : List (String × Val)) (cfg : TrackFieldConfig)
    (hcfg : get_cfg env m.name = some cfg)
    (hg : cfg.group_changes_per_record = false) :
    (tfd_write env m recs vals).notes.length ≤ 1
    ∧ ∀ n ∈ (tfd_write env m recs vals).notes,
        some n.target_id = recs.head?.map Entity.id := by
  have hg' : ¬(cfg.group_changes_per_record = true) := by simp [hg]
  have key : (tfd_write env m recs vals).notes = []
      ∨ ∃ r rs body, recs = r :: rs
          ∧ (tfd_write env m recs vals).notes = [mk_note r.id body] := by
    unfold tfd_write
    dsimp only
    by_cases h1 : TECH_MODELS.contains m.name = true
    · rw [if_pos h1]; exact Or.inl rfl
    · rw [if_neg h1]
      by_cases h2 : (recs.isEmpty = true ∨ ¬tfd_is_ready env = true)
      · rw [if_pos h2]; exact Or.inl rfl
      · rw [if_neg h2, hcfg]
        dsimp only
        by_cases h3 : cfg.field_ids.isEmpty = true
        · rw [if_pos h3]; exact Or.inl rfl
        · rw [if_neg h3]
          by_cases h4 : ¬(m.has_message_post && m.field_names.contains "message_ids") = true
          · rw [if_pos h4]; exact Or.inl rfl
          · rw [if_neg h4]
            by_cases h5 : (tracked_names cfg m).isEmpty = true
            · rw [if_pos h5]; exact Or.inl rfl
            · rw [if_neg h5, if_neg hg']
              have hs := write_block_notes_shape cfg
                  (recs.map (fun r => apply_vals r vals))
                  (recs.map (fun r => (r.id, snapshot_for m r (tracked_names cfg m))))
                  ((recs.map (fun r => apply_vals r vals)).map
                    (fun r => (r.id, snapshot_for m r (tracked_names cfg m))))
              rcases hs with hs | ⟨r0, tail, body, hw, hs⟩
              · exact Or.inl hs
              · cases recs with
                | nil => simp at hw
                | cons r rs =>
                  rw [List.map_cons] at hw
                  injection hw with h0 h1
                  exact Or.inr ⟨r, rs, body, rfl, by rw [hs, ← h0]; rfl⟩
  rcases key with h | ⟨r, rs, body, hrecs, h⟩
  · rw [h]
    exact ⟨by simp, by simp⟩
  · rw [h, hrecs]
    refine ⟨by simp, ?_⟩
    intro n hn
    rw [List.mem_singleton] at hn
    subst hn
    rfl

/-- Witness for `c5_amended_one_combined_note_on_first` at the C5 fixture
batch (two records, only the second one changed). -/
theorem c5_amended_witness :
    get_cfg c5env c5model.name = some c5cfg
    ∧ c5cfg.group_changes_per_record = false
    ∧ ((tfd_write c5env c5model [c5r1, c5r2]
          [("f1", Val.str "x"), ("f2", Val.str "y")]).notes.length ≤ 1
      ∧ ∀ n ∈ (tfd_write c5env c5model [c5r1, c5r2]
          [("f1", Val.str "x"), ("f2", Val.str "y")]).notes,
          some n.target_id = ([c5r1, c5r2].head?).map Entity.id) :=
  ⟨rfl, rfl,
   c5_amended_one_combined_note_on_first c5env c5model [c5r1, c5r2]
     [("f1", Val.str "x"), ("f2", Val.str "y")] c5cfg rfl rfl⟩

/-- A configuration is only ever found when the readiness guard holds. -/
theorem get_cfg_ready {env : Env} {name : String} {cfg : TrackFieldConfig}
    (h : get_cfg env name = some cfg) : tfd_is_ready env = true := by
  cases hr : tfd_is_ready env with
  | true => rfl
  | false =>
    unfold get_cfg at h
    rw [if_pos (by simp [hr])] at h
    cases h

/-- Sorting with `List.insertionSort` is invariant under permutation of the
input — the heart of multi-reference order independence. -/
theorem insertionSort_perm_eq (l l' : List Nat) (h : l.Perm l') :
    List.insertionSort (· ≤ ·) l = List.insertionSort (· ≤ ·) l' :=
  List.eq_of_perm_of_sorted
    (((List.perm_insertionSort _ l).trans h).trans (List.perm_insertionSort _ l').symm)
    (List.sorted_insertionSort _ l) (List.sorted_insertionSort _ l')

/-- Looking a field up in a snapshot returns the record's stored value, as
long as the field was requested and exists on the model. -/
theorem snap_get_snapshot_for (m : OdooModel) (e : Entity) :
    ∀ (names : List String) (n : String), n ∈ names →
      m.field_names.contains n = true →
      snap_get (snapshot_for m e names) n = some (read_field e n) := by
  intro names
  induction names with
  | nil => intro n hn _; cases hn
  | cons a as ih =>
    intro n hn hm
    unfold snapshot_for at ih ⊢
    rw [List.filterMap_cons]
    by_cases hna : n = a
    · subst hna
      rw [if_pos hm]
      simp [snap_get]
    · have hn' : n ∈ as := by
        rcases List.mem_cons.mp hn with h | h
        · exact absurd h hna
        · exact h
      have hbeq : (n == a) = false := beq_eq_false_iff_ne.mpr hna
      by_cases hca : m.field_names.contains a = true
      · rw [if_pos hca]
        unfold snap_get
        rw [List.lookup_cons, hbeq]
        exact ih n hn' hm
      · rw [if_neg hca]
        exact ih n hn' hm

/-- A successful association-list lookup comes from a member pair. -/
theorem mem_of_lookup_eq_some {l : List (String × Val)} {k : String} {b : Val}
    (h : l.lookup k = some b) : (k, b) ∈ l := by
  rcases List.lookup_eq_some_iff.mp h with ⟨l₁, l₂, rfl, -⟩
  exact List.mem_append_right _ (List.mem_cons_self _ _)

/-- With distinct keys, lookup finds exactly the member pair's value. -/
theorem lookup_of_nodup_mem :
    ∀ (l : List (String × Val)) (n : String) (v : Val),
      (l.map Prod.fst).Nodup → (n, v) ∈ l → l.lookup n = some v := by
  intro l
  induction l with
  | nil => intro n v _ h; cases h
  | cons p t ih =>
    intro n v hnd hmem
    obtain ⟨k, w⟩ := p
    rw [List.map_cons, List.nodup_cons] at hnd
    rcases List.mem_cons.mp hmem with heq | hmem'
    · rw [Prod.mk.injEq] at heq
      obtain ⟨rfl, rfl⟩ := heq
      exact List.lookup_cons_self
    · have hk : (n == k) = false := by
        rw [beq_eq_false_iff_ne]
        intro hnk
        subst hnk
        exact hnd.1 (List.mem_map.mpr ⟨(n, v), hmem', rfl⟩)
      rw [List.lookup_cons, hk]
      exact ih n v hnd.2 hmem'

/-- Writing values that all equal the currently stored ones leaves the record
unchanged. -/
theorem apply_vals_self (r : Entity) (vals : List (String × Val))
    (hnd : (r.vals.map Prod.fst).Nodup)
    (hstored : ∀ p ∈ vals, r.vals.lookup p.1 = some p.2) :
    apply_vals r vals = r := by
  unfold apply_vals
  have hvals : r.vals.map (fun p => (p.1, (vals.lookup p.1).getD p.2)) = r.vals := by
    have hall : ∀ p ∈ r.vals, (p.1, (vals.lookup p.1).getD p.2) = id p := by
      intro p hp
      cases hl : vals.lookup p.1 with
      | none => simp
      | some w =>
        have h1 : r.vals.lookup p.1 = some w := hstored _ (mem_of_lookup_eq_some hl)
        have h2 : r.vals.lookup p.1 = some p.2 :=
          lookup_of_nodup_mem r.vals p.1 p.2 hnd (by rw [Prod.mk.eta]; exact hp)
        rw [h1] at h2
        injection h2 with h3
        simp [h3]
    exact (List.map_congr_left hall).trans (List.map_id _)
  rw [hvals]

/-- Grouped emission over identical before/after snapshot maps posts
nothing. -/
theorem write_group_notes_self (cfg : TrackFieldConfig) (written : List Entity)
    (snaps : List (Nat × Snapshot)) :
    write_group_notes cfg written snaps snaps = [] := by
  unfold write_group_notes
  rw [List.filterMap_eq_nil_iff]
  intro r _
  simp [build_lines_self]

/-- Ungrouped emission over identical before/after snapshot maps posts
nothing. -/
theorem write_block_notes_self (cfg : TrackFieldConfig) (written : List Entity)
    (snaps : List (Nat × Snapshot)) :
    write_block_notes cfg written snaps snaps = [] := by
  unfold write_block_notes
  have hb : (written.filterMap (fun r =>
      let lines := build_lines cfg (by_id snaps r.id) (by_id snaps r.id)
      if lines.isEmpty then Option.none
      else some ("<div><b>" ++ r.display_name ++ "</b><br/>"
        ++ String.intercalate "<br/>" lines ++ "</div>"))) = [] := by
    rw [List.filterMap_eq_nil_iff]
    intro r _
    simp [build_lines_self]
  dsimp only
  rw [hb]
  simp

/-- Either a guard made `tfd_write` pass through (no note), or an active
configuration was found and the notes come from the corresponding emission
branch over the written records and the before/after snapshots. -/
theorem tfd_write_notes_cases (env : Env) (m : OdooModel) (recs : List Entity)
    (vals : List (String × Val)) :
    (tfd_write env m recs vals).notes = []
    ∨ ∃ cfg, get_cfg env m.name = some cfg
        ∧ (tfd_write env m recs vals).notes =
            (if cfg.group_changes_per_record then
              write_group_notes cfg (recs.map (fun r => apply_vals r vals))
                (recs.map (fun r => (r.id, snapshot_for m r (tracked_names cfg m))))
                ((recs.map (fun r => apply_vals r vals)).map
                  (fun r => (r.id, snapshot_for m r (tracked_names cfg m))))
            else
              write_block_notes cfg (recs.map (fun r => apply_vals r vals))
                (recs.map (fun r => (r.id, snapshot_for m r (tracked_names cfg m))))
                ((recs.map (fun r => apply_vals r vals)).map
                  (fun r => (r.id, snapshot_for m r (tracked_names cfg m))))) := by
  unfold tfd_write
  dsimp only
  by_cases h1 : TECH_MODELS.contains m.name = true
  · rw [if_pos h1]; exact Or.inl rfl
  · rw [if_neg h1]
    by_cases h2 : (recs.isEmpty = true ∨ ¬tfd_is_ready env = true)
    · rw [if_pos h2]; exact Or.inl rfl
    · rw [if_neg h2]
      cases hcfg : get_cfg env m.name with
      | none => exact Or.inl rfl
      | some cfg =>
        dsimp only
        by_cases h3 : cfg.field_ids.isEmpty = true
        · rw [if_pos h3]; exact Or.inl rfl
        · rw [if_neg h3]
          by_cases h4 : ¬(m.has_message_post && m.field_names.contains "message_ids") = true
          · rw [if_pos h4]; exact Or.inl rfl
          · rw [if_neg h4]
            by_cases h5 : (tracked_names cfg m).isEmpty = true
            · rw [if_pos h5]; exact Or.inl rfl
            · rw [if_neg h5]
              exact Or.inr ⟨cfg, rfl, rfl⟩

/-- **C9.** Idempotence: an update supplying only values that equal the ones
currently stored (so the write is a no-op on every record, given well-formed
records with distinct field keys) produces zero change lines for every
configuration and snapshot, posts zero notes, and leaves the records
unchanged. -/
theorem c9_idempotent_update_no_lines_no_notes (env : Env) (m : OdooModel)
    (recs : List Entity) (vals : List (String × Val))
    (hnd : ∀ r ∈ recs, (r.vals.map Prod.fst).Nodup)
    (hstored : ∀ r ∈ recs, ∀ p ∈ vals, r.vals.lookup p.1 = some p.2) :
    (∀ r ∈ recs, ∀ cfg names,
        build_lines cfg (snapshot_for m r names)
          (snapshot_for m (apply_vals r vals) names) = [])
    ∧ (tfd_write env m recs vals).notes = []
    ∧ (tfd_write env m recs vals).records = recs := by
  have hfix : ∀ r ∈ recs, apply_vals r vals = r :=
    fun r hr => apply_vals_self r vals (hnd r hr) (hstored r hr)
  have hmap : recs.map (fun r => apply_vals r vals) = recs :=
    (List.map_congr_left (fun a ha => hfix a ha)).trans (List.map_id _)
  refine ⟨?_, ?_, ?_⟩
  · intro r hr cfg names
    rw [hfix r hr]
    exact build_lines_self cfg _
  · rcases tfd_write_notes_cases env m recs vals with h | ⟨cfg, _, hnotes⟩
    · exact h
    · rw [hmap] at hnotes
      rw [write_group_notes_self, write_block_notes_self, ite_self] at hnotes
      exact hnotes
  · have h0 : (tfd_write env m recs vals).records = (orig_write recs vals).1 := by
      unfold tfd_write
      dsimp only
      repeat' split
      all_goals rfl
    rw [h0]
    exact hmap

/-- Witness for `c9_idempotent_update_no_lines_no_notes`: writing the stored
value back to a tracked record posts nothing and changes nothing. -/
theorem c9_witness :
    (∀ r ∈ [c9rec], (r.vals.map Prod.fst).Nodup)
    ∧ (∀ r ∈ [c9rec], ∀ p ∈ [("name", Val.str "a")], r.vals.lookup p.1 = some p.2)
    ∧ (tfd_write c9env c9model [c9rec] [("name", Val.str "a")]).notes = []
    ∧ (tfd_write c9env c9model [c9rec] [("name", Val.str "a")]).records = [c9rec] :=
  ⟨by decide, by decide,
   (c9_idempotent_update_no_lines_no_notes c9env c9model [c9rec]
      [("name", Val.str "a")] (by decide) (by decide)).2.1,
   (c9_idempotent_update_no_lines_no_notes c9env c9model [c9rec]
      [("name", Val.str "a")] (by decide) (by decide)).2.2⟩

/-- **C8.** Multi-reference order independence: when every watched field's
value either did not change or is a multi-reference whose recordset was only
reordered (same ids up to permutation), the diff produces zero change lines —
because `_build_lines` normalizes multi-reference values to `tuple(sorted(ids))`
before comparing. -/
theorem c8_reorder_only_no_lines (cfg : TrackFieldConfig) (before after : Snapshot)
    (h : ∀ f ∈ cfg.field_ids,
        reorder_only f.ttype (snap_get before f.name) (snap_get after f.name)) :
    build_lines cfg before after = [] := by
  unfold build_lines
  rw [List.filterMap_eq_nil_iff]
  intro f hf
  rcases h f hf with heq | ⟨l, l', hb, ha, ht, hperm⟩
  · rw [heq]
    cases hafter : snap_get after f.name <;> simp [hafter]
  · rw [hb, ha]
    have hnorm : normalize_cmp f.ttype (.recordset l)
        = normalize_cmp f.ttype (.recordset l') := by
      rcases ht with ht | ht <;>
        simp [normalize_cmp, ht, insertionSort_perm_eq _ _ hperm]
    simp [hnorm]

/-- Witness for `c8_reorder_only_no_lines`: reordering the members of a
watched many2many field produces no change line. -/
theorem c8_witness :
    (∀ f ∈ c8cfg.field_ids, reorder_only f.ttype
        (snap_get [("tag_ids", Val.recordset [(1, "A"), (2, "B")])] f.name)
        (snap_get [("tag_ids", Val.recordset [(2, "B"), (1, "A")])] f.name))
    ∧ build_lines c8cfg [("tag_ids", Val.recordset [(1, "A"), (2, "B")])]
        [("tag_ids", Val.recordset [(2, "B"), (1, "A")])] = [] := by
  have hro : ∀ f ∈ c8cfg.field_ids, reorder_only f.ttype
      (snap_get [("tag_ids", Val.recordset [(1, "A"), (2, "B")])] f.name)
      (snap_get [("tag_ids", Val.recordset [(2, "B"), (1, "A")])] f.name) := by
    intro f hf
    rw [show c8cfg.field_ids = [c8field] from rfl, List.mem_singleton] at hf
    subst hf
    exact Or.inr ⟨[(1, "A"), (2, "B")], [(2, "B"), (1, "A")], rfl, rfl,
      Or.inl rfl, by decide⟩
  exact ⟨hro, c8_reorder_only_no_lines c8cfg _ _ hro⟩

/-- Grouped emission over a single written record: one note iff its line list
is non-empty. -/
theorem write_group_notes_singleton (cfg : TrackFieldConfig) (w : Entity)
    (before after : List (Nat × Snapshot)) :
    write_group_notes cfg [w] before after =
      (if (build_lines cfg (by_id before w.id) (by_id after w.id)).isEmpty then []
       else [mk_note w.id ("<div>" ++ String.intercalate "<br/>"
              (build_lines cfg (by_id before w.id) (by_id after w.id)) ++ "</div>")]) := by
  unfold write_group_notes
  by_cases hl : (build_lines cfg (by_id before w.id) (by_id after w.id)).isEmpty = true
  · rw [if_pos hl]
    have hl' : build_lines cfg (by_id before w.id) (by_id after w.id) = [] := by
      simpa using hl
    simp [List.filterMap_cons, hl']
  · rw [if_neg hl]
    have hl' : ¬ build_lines cfg (by_id before w.id) (by_id after w.id) = [] := by
      simpa using hl
    simp [List.filterMap_cons, hl']

/-- **C6.** With `group_changes_per_record` true, an update that changes all
three watched fields of a single record (all guards passing) posts EXACTLY one
note, on that record, whose body holds the three change lines joined by
`<br/>` in the configuration's declared `field_ids` order `f1, f2, f3` — not
in any map-iteration order; the emission is a pure function of the
configuration, so identical configurations render identically. -/
theorem c6_grouped_three_fields_one_note_in_order (env : Env) (m : OdooModel)
    (r : Entity) (vals : List (String × Val)) (cfg : TrackFieldConfig)
    (f1 f2 f3 : IrModelField)
    (htech : TECH_MODELS.contains m.name = false)
    (hcfg : get_cfg env m.name = some cfg)
    (hfields : cfg.field_ids = [f1, f2, f3])
    (hgroup : cfg.group_changes_per_record = true)
    (hchat : (m.has_message_post && m.field_names.contains "message_ids") = true)
    (hm1 : m.field_names.contains f1.name = true)
    (hm2 : m.field_names.contains f2.name = true)
    (hm3 : m.field_names.contains f3.name = true)
    (hc1 : normalize_cmp f1.ttype (read_field r f1.name)
        ≠ normalize_cmp f1.ttype (read_field (apply_vals r vals) f1.name))
    (hc2 : normalize_cmp f2.ttype (read_field r f2.name)
        ≠ normalize_cmp f2.ttype (read_field (apply_vals r vals) f2.name))
    (hc3 : normalize_cmp f3.ttype (read_field r f3.name)
        ≠ normalize_cmp f3.ttype (read_field (apply_vals r vals) f3.name)) :
    (tfd_write env m [r] vals).notes =
      [mk_note r.id ("<div>" ++ String.intercalate "<br/>"
          [change_line cfg f1 (read_field r f1.name)
             (read_field (apply_vals r vals) f1.name),
           change_line cfg f2 (read_field r f2.name)
             (read_field (apply_vals r vals) f2.name),
           change_line cfg f3 (read_field r f3.name)
             (read_field (apply_vals r vals) f3.name)]
        ++ "</div>")] := by
  have hready : tfd_is_ready env = true := get_cfg_ready hcfg
  have hm1' : f1.name ∈ m.field_names := by simpa using hm1
  have hm2' : f2.name ∈ m.field_names := by simpa using hm2
  have hm3' : f3.name ∈ m.field_names := by simpa using hm3
  have htr : tracked_names cfg m = [f1.name, f2.name, f3.name] := by
    simp [tracked_names, hfields, hm1', hm2', hm3']
  have hlines : build_lines cfg (snapshot_for m r (tracked_names cfg m))
      (snapshot_for m (apply_vals r vals) (tracked_names cfg m))
      = [change_line cfg f1 (read_field r f1.name)
           (read_field (apply_vals r vals) f1.name),
         change_line cfg f2 (read_field r f2.name)
           (read_field (apply_vals r vals) f2.name),
         change_line cfg f3 (read_field r f3.name)
           (read_field (apply_vals r vals) f3.name)] := by
    have g1b := snap_get_snapshot_for m r [f1.name, f2.name, f3.name]
        f1.name (by simp) hm1
    have g2b := snap_get_snapshot_for m r [f1.name, f2.name, f3.name]
        f2.name (by simp) hm2
    have g3b := snap_get_snapshot_for m r [f1.name, f2.name, f3.name]
        f3.name (by simp) hm3
    have g1a := snap_get_snapshot_for m (apply_vals r vals) [f1.name, f2.name, f3.name]
        f1.name (by simp) hm1
    have g2a := snap_get_snapshot_for m (apply_vals r vals) [f1.name, f2.name, f3.name]
        f2.name (by simp) hm2
    have g3a := snap_get_snapshot_for m (apply_vals r vals) [f1.name, f2.name, f3.name]
        f3.name (by simp) hm3
    unfold build_lines
    rw [hfields, htr]
    rw [List.filterMap_cons, List.filterMap_cons, List.filterMap_cons, List.filterMap_nil]
    rw [g1b, g1a, g2b, g2a, g3b, g3a]
    dsimp only
    rw [if_neg hc1, if_neg hc2, if_neg hc3]
  have htech' : m.name ∉ TECH_MODELS := by simpa using htech
  have hchat' : m.has_message_post = true ∧ "message_ids" ∈ m.field_names := by
    simpa using hchat
  unfold tfd_write
  dsimp only
  rw [if_neg (by simp [htech']), if_neg (by simp [hready]), hcfg]
  dsimp only
  rw [if_neg (by simp [hfields]), if_neg (by simp [hchat'.1, hchat'.2]),
    if_neg (by simp [htr]), if_pos hgroup]
  dsimp only [List.map]
  rw [write_group_notes_singleton, apply_vals_id]
  rw [show by_id [(r.id, snapshot_for m r (tracked_names cfg m))] r.id
        = snapshot_for m r (tracked_names cfg m) from by simp [by_id]]
  rw [show by_id [(r.id, snapshot_for m (apply_vals r vals) (tracked_names cfg m))] r.id
        = snapshot_for m (apply_vals r vals) (tracked_names cfg m) from by simp [by_id]]
  rw [hlines]
  simp

/-- Witness for `c6_grouped_three_fields_one_note_in_order`: a grouped update
changing the three watched char fields of one record yields exactly the one
note `<div>FA: 1 → 10<br/>FB: 2 → 20<br/>FC: 3 → 30</div>` on it. -/
theorem c6_witness :
    (tfd_write c6env c6model [c6rec] c6vals).notes =
      [mk_note c6rec.id ("<div>" ++ String.intercalate "<br/>"
          [change_line c6cfg c6f1 (read_field c6rec c6f1.name)
             (read_field (apply_vals c6rec c6vals) c6f1.name),
           change_line c6cfg c6f2 (read_field c6rec c6f2.name)
             (read_field (apply_vals c6rec c6vals) c6f2.name),
           change_line c6cfg c6f3 (read_field c6rec c6f3.name)
             (read_field (apply_vals c6rec c6vals) c6f3.name)]
        ++ "</div>")]
    ∧ (tfd_write c6env c6model [c6rec] c6vals).notes =
      [mk_note 9 "<div>FA: 1 → 10<br/>FB: 2 → 20<br/>FC: 3 → 30</div>"] :=
  ⟨c6_grouped_three_fields_one_note_in_order c6env c6model c6rec c6vals c6cfg
      c6f1 c6f2 c6f3 rfl rfl rfl rfl rfl rfl rfl rfl
      (by decide) (by decide) (by decide),
   rfl⟩
